import Mathlib

/-!
Verification development for the receipt_app document-parsing pipeline
(`processing/parsing.py`, `processing/validation.py`, `processing/ocr_utils.py`).

The Python source is shallowly embedded: strings are `List Char`, Python
`re` searches run through a small backtracking engine (`RxM.mrun`) whose
alternation, greediness and leftmost-search priorities mirror CPython's
`re` module on the pattern subset the source uses, `datetime.strptime` is
embedded for exactly the format directives occurring in
`parsing.formats_to_try`, and `float` amounts are modelled as exact
rationals (every amount the source manipulates is a short decimal, for
which `float` comparison agrees with rational comparison).  External
library calls (OpenCV, Tesseract, PyPDF2, codecs) are parameters of the
embedding; only their documented behaviour that the claims depend on is
fixed (for example `cv2.minAreaRect` asserting on an empty point list).
-/

namespace Receipts

/-! ## Python string primitives -/

/-- Whitespace set of Python `str.strip` / `str.split()` / regex `\s`
restricted to ASCII (the unicode additions never occur in the texts the
source manipulates). -/
def pyWs (c : Char) : Bool :=
  c = ' ' || c = '\t' || c = '\n' || c = '\r' || c = '\x0b' || c = '\x0c'

/-- Drop leading whitespace, as the left half of Python `str.strip()`. -/
def dropWs (l : List Char) : List Char := l.dropWhile pyWs

/-- Python `str.strip()`: drop whitespace from both ends. -/
def pyStrip (l : List Char) : List Char :=
  ((dropWs l).reverse.dropWhile pyWs).reverse

/-- Python `str.strip()` at `String` level. -/
def pyStripStr (s : String) : String := ⟨pyStrip s.data⟩

/-- Python `str.lower()` (ASCII case mapping; the source only lowercases
ASCII receipt text). -/
def pyLower (l : List Char) : List Char := l.map Char.toLower

/-- Python `c.isupper()` for a single character, ASCII-cased. -/
def isUpperPy (c : Char) : Bool := 'A' ≤ c && c ≤ 'Z'

/-- ASCII letter test, standing in for Python "cased"/`isalpha`
characters in the ASCII texts the source handles. -/
def isAlphaPy (c : Char) : Bool :=
  ('A' ≤ c && c ≤ 'Z') || ('a' ≤ c && c ≤ 'z')

/-- Python `str.isupper()`: at least one cased character and every cased
character uppercase. -/
def pyIsUpper (l : List Char) : Bool :=
  l.any isAlphaPy && l.all (fun c => !isAlphaPy c || isUpperPy c)

/-- Python `str.isalpha()`: nonempty and all alphabetic. -/
def pyIsAlpha (l : List Char) : Bool := !l.isEmpty && l.all isAlphaPy

/-- Python `str.split(sep)` for a one-character separator (keeps empty
pieces, `"" -> [""]`), as used by `text.split('\n')` and
`file_name.split('.')`. -/
def pySplitOn (sep : Char) : List Char → List (List Char)
  | [] => [[]]
  | c :: cs =>
    if c = sep then [] :: pySplitOn sep cs
    else
      match pySplitOn sep cs with
      | [] => [[c]]
      | g :: gs => (c :: g) :: gs

/-- Python no-argument `str.split()`: split on whitespace runs, dropping
empty pieces. -/
def pySplitWs : List Char → List (List Char)
  | [] => []
  | c :: cs =>
    if pyWs c then pySplitWs cs
    else
      match pySplitWs cs with
      | (g :: gs) =>
        match cs with
        | [] => [[c]]
        | d :: _ => if pyWs d then [c] :: (g :: gs) else (c :: g) :: gs
      | [] => [[c]]

/-- Python `' '.join(pieces)`. -/
def joinSpace : List (List Char) → List Char
  | [] => []
  | [g] => g
  | g :: gs => g ++ ' ' :: joinSpace gs

/-- Python `str.title()` restricted to ASCII: uppercase every letter that
does not follow a letter, lowercase every other letter. -/
def pyTitleGo : Bool → List Char → List Char
  | _, [] => []
  | prevAlpha, c :: cs =>
    if isAlphaPy c then
      (if prevAlpha then c.toLower else c.toUpper) :: pyTitleGo true cs
    else
      c :: pyTitleGo false cs

/-- Python `str.title()`. -/
def pyTitle (l : List Char) : List Char := pyTitleGo false l

/-- Python substring test `needle in haystack`. -/
def isSub (needle haystack : List Char) : Bool :=
  (List.range (haystack.length + 1)).any
    (fun i => needle.isPrefixOf (haystack.drop i))

/-- Count of decimal digits, as `len(re.findall(r digit, s))`. -/
def digitCount (l : List Char) : Nat := (l.filter Char.isDigit).length

/-! ## A backtracking regex engine with CPython `re` priorities

Patterns are transliterated from the source's raw regex strings into
`Rx` values; `mrun` is a continuation-passing backtracking matcher whose
prioritisation (leftmost alternative first, greedy repetition) matches
CPython's.  A fuel argument makes it structurally recursive; the fuel
supplied by `tryAt` is far above the maximal backtracking depth for the
fixed pattern set and claim inputs, and no theorem below depends on fuel
sufficiency for its universally-quantified parts. -/

inductive Rx where
  | eps : Rx
  | lit : Char → Rx
  | cls : (Char → Bool) → Rx
  | seq : Rx → Rx → Rx
  | alt : Rx → Rx → Rx
  | star : Rx → Rx
  | rep : Rx → Nat → Option Nat → Rx
  | grp : Nat → Rx → Rx

/-- Crude node count used only to size the fuel. -/
def rxSize : Rx → Nat
  | .eps => 1
  | .lit _ => 1
  | .cls _ => 1
  | .seq a b => rxSize a + rxSize b + 1
  | .alt a b => rxSize a + rxSize b + 1
  | .star a => rxSize a + 1
  | .rep a lo hi => (rxSize a + 1) * (lo + (match hi with | some h => h | none => 1) + 2)
  | .grp _ a => rxSize a + 1

/-- Captured groups: most recent binding first. -/
abbrev Caps := List (Nat × List Char)

/-- Backtracking matcher.  `k` is the success continuation, receiving the
rest of the input and the captures; returning `none` from `k` resumes
backtracking, which yields CPython's preference order (first alternative
first, greedy `*`/`{m,n}`/`?`, leftmost match through `searchAux`). -/
def mrun : Nat → Rx → List Char → Caps →
    (List Char → Caps → Option (List Char × Caps)) → Option (List Char × Caps)
  | 0, _, _, _, _ => none
  | _ + 1, .eps, s, cp, k => k s cp
  | _ + 1, .lit c, s, cp, k =>
    match s with
    | [] => none
    | x :: xs => if x = c then k xs cp else none
  | _ + 1, .cls p, s, cp, k =>
    match s with
    | [] => none
    | x :: xs => if p x then k xs cp else none
  | f + 1, .seq a b, s, cp, k =>
    mrun f a s cp (fun s2 cp2 => mrun f b s2 cp2 k)
  | f + 1, .alt a b, s, cp, k =>
    match mrun f a s cp k with
    | some r => some r
    | none => mrun f b s cp k
  | f + 1, .star a, s, cp, k =>
    match mrun f a s cp (fun s2 cp2 =>
        if s2.length < s.length then mrun f (.star a) s2 cp2 k else none) with
    | some r => some r
    | none => k s cp
  | f + 1, .rep a lo hi, s, cp, k =>
    match lo with
    | lo2 + 1 =>
      mrun f a s cp (fun s2 cp2 =>
        mrun f (.rep a lo2 (hi.map (· - 1))) s2 cp2 k)
    | 0 =>
      match hi with
      | some 0 => k s cp
      | _ =>
        match mrun f a s cp (fun s2 cp2 =>
            if s2.length < s.length then
              mrun f (.rep a 0 (hi.map (· - 1))) s2 cp2 k
            else none) with
        | some r => some r
        | none => k s cp
  | f + 1, .grp n a, s, cp, k =>
    mrun f a s cp (fun s2 cp2 =>
      k s2 ((n, s.take (s.length - s2.length)) :: cp2))

/-- Fuel that comfortably bounds the backtracking depth for our patterns. -/
def rxFuel (r : Rx) (s : List Char) : Nat := (rxSize r + 2) * (s.length + 2)

/-- Anchored match attempt at the start of `s` (CPython `re.match`):
returns the consumed prefix (group 0) and captures of the first match in
preference order. -/
def tryAt (r : Rx) (s : List Char) : Option (List Char × Caps) :=
  match mrun (rxFuel r s) r s [] (fun rest cp => some (rest, cp)) with
  | some (rest, cp) => some (s.take (s.length - rest.length), cp)
  | none => none

/-- Leftmost search (CPython `re.search`): returns
(text before the match, group 0, captures). -/
def searchAux (r : Rx) : List Char → List Char → Option (List Char × List Char × Caps)
  | acc, s =>
    match tryAt r s with
    | some (g0, cp) => some (acc.reverse, g0, cp)
    | none =>
      match s with
      | [] => none
      | c :: cs => searchAux r (c :: acc) cs

/-- Python `re.search(r, s)` as group 0 plus captures. -/
def rxSearch (r : Rx) (s : List Char) : Option (List Char × Caps) :=
  (searchAux r [] s).map (fun x => (x.2.1, x.2.2))

/-- Whether `re.search` finds a match. -/
def rxTest (r : Rx) (s : List Char) : Bool := (rxSearch r s).isSome

/-- Group lookup (`match.group(n)`), defaulting to the empty string; every
group the source reads is a mandatory part of its pattern. -/
def capGet (cp : Caps) (n : Nat) : List Char :=
  match cp.find? (fun x => x.1 = n) with
  | some x => x.2
  | none => []

/-- Python `match.group(1)` of the leftmost search, when it matches. -/
def rxSearchG1 (r : Rx) (s : List Char) : Option (List Char) :=
  (rxSearch r s).map (fun x => capGet x.2 1)

/-- Python `match.group(1), match.group(2)` of the leftmost search. -/
def rxSearchG12 (r : Rx) (s : List Char) : Option (List Char × List Char) :=
  (rxSearch r s).map (fun x => (capGet x.2 1, capGet x.2 2))

/-- Python `re.split(r, s, 1)[0]`: the text before the leftmost match
(`s` itself when there is none). -/
def rxSplitBefore (r : Rx) (s : List Char) : List Char :=
  match searchAux r [] s with
  | some (before, _, _) => before
  | none => s

/-! ### Pattern combinators (transliteration helpers) -/

/-- Sequence a list of pattern pieces. -/
def rSeq (l : List Rx) : Rx := l.foldr Rx.seq Rx.eps

/-- Prioritised alternation of a nonempty list, first alternative first. -/
def rAlts : List Rx → Rx
  | [] => Rx.cls (fun _ => false)
  | [r] => r
  | r :: rs => Rx.alt r (rAlts rs)

/-- Literal string, case-sensitive. -/
def rStr (s : String) : Rx := rSeq (s.data.map Rx.lit)

/-- Literal string under `re.IGNORECASE` (ASCII folding). -/
def rStrCI (s : String) : Rx :=
  rSeq (s.data.map (fun c => Rx.cls (fun x => x.toLower = c.toLower)))

/-- Regex class `\d`. -/
def rDigit : Rx := Rx.cls Char.isDigit

/-- Regex class `\s`. -/
def rWs : Rx := Rx.cls pyWs

/-- Greedy `r*`. -/
def rStar (r : Rx) : Rx := Rx.star r

/-- Greedy `r+`. -/
def rPlus (r : Rx) : Rx := Rx.seq r (Rx.star r)

/-- Greedy `r?`. -/
def rOpt (r : Rx) : Rx := Rx.rep r 0 (some 1)

/-- Regex `.` (any character but newline). -/
def rDot : Rx := Rx.cls (fun c => c ≠ '\n')

/-! ## datetime.strptime for the directives of `parsing.formats_to_try`

CPython's `_strptime` compiles a format to a regex — `%Y` is four digits,
`%y` two, `%m` is `1[0-2]|0[1-9]|[1-9]`, `%d` is
`3[01]|[12]\d|0[1-9]|[1-9]`, `%b`/`%B` are case-insensitive alternations
of month names longest-first, and literal whitespace becomes `\s+` — then
anchors the first preferred match and rejects the input if unconverted
characters remain.  `datetime` construction validates the day against the
month (with leap years) and requires year at least 1. -/

structure Date where
  year : Nat
  month : Nat
  day : Nat
deriving DecidableEq, Repr

/-- Format directives appearing in `formats_to_try`. -/
inductive FmtTok where
  | lit : Char → FmtTok
  | ws : FmtTok
  | dY : FmtTok
  | dy : FmtTok
  | dm : FmtTok
  | dd : FmtTok
  | db : FmtTok
  | dB : FmtTok
deriving DecidableEq, Repr

/-- Month abbreviations, locale C calendar order (all the same length, so
CPython's stable longest-first sort keeps this order). -/
def monthAbbrs : List String :=
  ["jan", "feb", "mar", "apr", "may", "jun", "jul", "aug", "sep", "oct", "nov", "dec"]

/-- Full month names in CPython's compiled order: the calendar-order list
stably sorted by length, longest first. -/
def monthFulls : List String :=
  ["september", "february", "november", "december", "january", "october",
   "august", "march", "april", "june", "july", "may"]

/-- Calendar month numbers of the abbreviated names. -/
def monthAbbrAssoc : List (String × Nat) :=
  [("jan", 1), ("feb", 2), ("mar", 3), ("apr", 4), ("may", 5), ("jun", 6),
   ("jul", 7), ("aug", 8), ("sep", 9), ("oct", 10), ("nov", 11), ("dec", 12)]

/-- Calendar month numbers of the full names. -/
def monthFullAssoc : List (String × Nat) :=
  [("january", 1), ("february", 2), ("march", 3), ("april", 4), ("may", 5),
   ("june", 6), ("july", 7), ("august", 8), ("september", 9), ("october", 10),
   ("november", 11), ("december", 12)]

/-- Calendar month number of a (lowercased) captured month name. -/
def monthNum (assoc : List (String × Nat)) (w : List Char) : Nat :=
  match assoc.find? (fun x => x.1.data = w) with
  | some x => x.2
  | none => 0

/-- Character class `[1-9]`. -/
def rx19 : Rx := Rx.cls (fun c => '1' ≤ c && c ≤ '9')

/-- Regex of one directive, with the capture-group numbering
Y=1, y=2, m=3, d=4, b=5, B=6. -/
def fmtTokRx : FmtTok → Rx
  | .lit c => Rx.lit c
  | .ws => rPlus rWs
  | .dY => Rx.grp 1 (Rx.rep rDigit 4 (some 4))
  | .dy => Rx.grp 2 (Rx.rep rDigit 2 (some 2))
  | .dm => Rx.grp 3 (rAlts
      [Rx.seq (Rx.lit '1') (Rx.cls (fun c => c = '0' || c = '1' || c = '2')),
       Rx.seq (Rx.lit '0') rx19,
       rx19])
  | .dd => Rx.grp 4 (rAlts
      [Rx.seq (Rx.lit '3') (Rx.cls (fun c => c = '0' || c = '1')),
       Rx.seq (Rx.cls (fun c => c = '1' || c = '2')) rDigit,
       Rx.seq (Rx.lit '0') rx19,
       rx19])
  | .db => Rx.grp 5 (rAlts (monthAbbrs.map rStrCI))
  | .dB => Rx.grp 6 (rAlts (monthFulls.map rStrCI))

/-- Compiled regex of a whole format. -/
def fmtRx (fmt : List FmtTok) : Rx := rSeq (fmt.map fmtTokRx)

/-- Numeric value of a digit string. -/
def natOfDigits (l : List Char) : Nat :=
  l.foldl (fun n c => 10 * n + (c.toNat - '0'.toNat)) 0

/-- Leap-year rule of `datetime`. -/
def isLeap (y : Nat) : Bool := y % 4 = 0 && (y % 100 ≠ 0 || y % 400 = 0)

/-- Days in a month, as validated by the `datetime` constructor. -/
def daysInMonth (y m : Nat) : Nat :=
  if m = 2 then (if isLeap y then 29 else 28)
  else if m = 4 || m = 6 || m = 9 || m = 11 then 30
  else 31

/-- Build the `date` from the captured directive groups, applying
CPython's two-digit-year century rule and `datetime`'s range checks. -/
def buildDate (cp : Caps) : Option Date :=
  let year :=
    if (cp.find? (fun x => x.1 = 1)).isSome then natOfDigits (capGet cp 1)
    else
      let y2 := natOfDigits (capGet cp 2)
      if y2 ≤ 68 then 2000 + y2 else 1900 + y2
  let month :=
    if (cp.find? (fun x => x.1 = 3)).isSome then natOfDigits (capGet cp 3)
    else if (cp.find? (fun x => x.1 = 5)).isSome then
      monthNum monthAbbrAssoc (pyLower (capGet cp 5))
    else monthNum monthFullAssoc (pyLower (capGet cp 6))
  let day := natOfDigits (capGet cp 4)
  if 1 ≤ year && 1 ≤ month && month ≤ 12 && 1 ≤ day && day ≤ daysInMonth year month
  then some ⟨year, month, day⟩ else none

/-- `datetime.strptime(s, fmt).date()` wrapped in the source's
`except ValueError` pattern: `none` models the raised `ValueError`
(no match, unconverted trailing data, or out-of-range date). -/
def strptimeDate (fmt : List FmtTok) (s : List Char) : Option Date :=
  match tryAt (fmtRx fmt) s with
  | some (g0, cp) => if g0.length = s.length then buildDate cp else none
  | none => none

/-- The module-level `formats_to_try` list of `parsing.py`, in source
order.  Dates handed to it have had `.` and (for the transaction date)
`,` removed beforehand, exactly as in the source. -/
def formats_to_try : List (List FmtTok) :=
  [[.dY, .lit '-', .dm, .lit '-', .dd],
   [.dd, .lit '-', .dm, .lit '-', .dY],
   [.dm, .lit '-', .dd, .lit '-', .dY],
   [.dY, .lit '/', .dm, .lit '/', .dd],
   [.dd, .lit '/', .dm, .lit '/', .dY],
   [.dm, .lit '/', .dd, .lit '/', .dY],
   [.dY, .lit '.', .dm, .lit '.', .dd],
   [.dd, .lit '.', .dm, .lit '.', .dY],
   [.dm, .lit '.', .dd, .lit '.', .dY],
   [.db, .ws, .dd, .lit ',', .ws, .dY],
   [.dB, .ws, .dd, .lit ',', .ws, .dY],
   [.dd, .ws, .db, .ws, .dY],
   [.dd, .ws, .dB, .ws, .dY],
   [.dY, .dm, .dd],
   [.dy, .lit '-', .dm, .lit '-', .dd],
   [.dd, .lit '-', .dm, .lit '-', .dy],
   [.dy, .lit '/', .dm, .lit '/', .dd],
   [.dd, .lit '/', .dm, .lit '/', .dy]]

/-- The source's inner loop `for fmt in formats_to_try: try: ... break
except ValueError: continue`: first format that parses wins. -/
def tryFormats : List (List FmtTok) → List Char → Option Date
  | [], _ => none
  | f :: fs, s =>
    match strptimeDate f s with
    | some d => some d
    | none => tryFormats fs s

/-! ## `parsing._extract_from_text`

Every regex below is a transliteration of the corresponding raw string in
`parsing.py`; the searches run on `lower_text`/`lower_line` exactly where
the source lowercases, and on the original text (with `IGNORECASE`
literals) for the vendor patterns. -/

/-- Exceptions Python could raise uncaught inside `_extract_from_text`:
division by zero in the digit-ratio test and indexing `cleaned_line[0]`.
The totality theorem shows neither is reachable. -/
inductive PyExc where
  | zeroDivision : PyExc
  | indexOutOfRange : PyExc
deriving DecidableEq, Repr

/-- Character class `[$€£₹]`. -/
def currSymCls : Rx := Rx.cls (fun c => c = '$' || c = '€' || c = '£' || c = '₹')

/-- Regex fragment `[\d,]+\.?\d{0,2}`. -/
def amtNum : Rx :=
  rSeq [rPlus (Rx.cls (fun c => c.isDigit || c = ',')),
        rOpt (Rx.lit '.'), Rx.rep rDigit 0 (some 2)]

/-- Regex fragment `[:=]?`. -/
def colonEq : Rx := rOpt (Rx.cls (fun c => c = ':' || c = '='))

/-- Regex fragment `(?:usd|eur|gbp|inr|cad|aud)`. -/
def isoCodes : Rx := rAlts (["usd", "eur", "gbp", "inr", "cad", "aud"].map rStr)

/-- The `amount_patterns` list of `_extract_from_text`, in source order. -/
def amount_patterns : List Rx :=
  [rSeq [rAlts (["total", "amount due", "grand total", "net amount", "balance due",
                 "total paid", "total bill", "due amount"].map rStr),
         rStar rWs, colonEq, rStar rWs,
         Rx.grp 1 (rSeq [currSymCls, rStar rWs, amtNum])],
   rSeq [Rx.grp 1 (rSeq [currSymCls, rStar rWs, amtNum]), rStar rWs,
         rAlts (["total", "amount", "due", "paid"].map rStr)],
   rSeq [rAlts (["total", "amount", "sum", "grand total", "bill", "paid", "due"].map rStr),
         rStar rWs, colonEq, rStar rWs, Rx.grp 1 amtNum],
   rSeq [Rx.grp 1 amtNum, rStar rWs, isoCodes],
   rSeq [isoCodes, rStar rWs, Rx.grp 1 amtNum]]

/-- The currency-indicator search `([$€£₹]|usd|eur|gbp|inr|cad|aud)`
(IGNORECASE) applied to a matched amount substring. -/
def detectCurrRx : Rx :=
  Rx.grp 1 (rAlts (currSymCls :: (["usd", "eur", "gbp", "inr", "cad", "aud"].map rStrCI)))

/-- The symbol/code to ISO-code mapping of the amount loop
(`'$'→USD, '€'→EUR, '£'→GBP, '₹'→INR`, ISO codes uppercased). -/
def symToCode (g : List Char) : String :=
  let u := g.map Char.toUpper
  if u = "$".data then "USD"
  else if u = "€".data then "EUR"
  else if u = "£".data then "GBP"
  else if u = "₹".data then "INR"
  else ⟨u⟩

/-- Python `float()` on the cleaned amount string (digits and dots only,
since the source strips everything else): valid exactly when it has at
least one digit and at most one dot; values are exact rationals. -/
def pyFloat (l : List Char) : Option ℚ :=
  if l.all (fun c => c.isDigit || c = '.') && l.any Char.isDigit then
    match pySplitOn '.' l with
    | [ip] => some (mkRat (natOfDigits ip) 1)
    | [ip, fp] => some (mkRat (natOfDigits ip * 10 ^ fp.length + natOfDigits fp) (10 ^ fp.length))
    | _ => none
  else none

/-- State of the amount loop after it finishes: the accepted amount (if
any), the `currency` local variable (initial value `"INR"`, updated by
every examined match that contains a currency indicator — also by
matches whose amount is then discarded), and, for the record, the
matched `value_str` that produced the accepted amount. -/
structure AmountScan where
  amount : Option ℚ
  currency : String
  matched : Option (List Char)
deriving DecidableEq, Repr

/-- The `for pattern in amount_patterns` loop: first plausible amount
wins; commas are removed from the matched group, a currency indicator
inside it updates `currency`, the value is cleaned to digits/dots and
parsed, and amounts outside `(0.01, 1_000_000)` are discarded. -/
def amountLoop : List Rx → List Char → String → AmountScan
  | [], _, curr => ⟨none, curr, none⟩
  | p :: ps, lt, curr =>
    match rxSearchG1 p lt with
    | none => amountLoop ps lt curr
    | some g1 =>
      let vstr := pyStrip (g1.filter (fun c => c ≠ ','))
      let curr2 :=
        match rxSearchG1 detectCurrRx vstr with
        | some sym => symToCode sym
        | none => curr
      match pyFloat (vstr.filter (fun c => c.isDigit || c = '.')) with
      | none => amountLoop ps lt curr2
      | some a =>
        if Rat.blt (mkRat 1 100) a && Rat.blt a (mkRat 1000000 1) then
          ⟨some a, curr2, some vstr⟩
        else amountLoop ps lt curr2

/-- Character class matching a date separator: dash, slash or dot. -/
def dateSep : Rx := Rx.cls (fun c => c = '-' || c = '/' || c = '.')

/-- Regex fragment `(?:jan|feb|mar|apr|may|jun|jul|aug|sep|oct|nov|dec)`. -/
def monAbbrAlt : Rx := rAlts (monthAbbrs.map rStr)

/-- Character class `[a-z]`. -/
def lowerAZ : Rx := Rx.cls (fun c => 'a' ≤ c && c ≤ 'z')

/-- The `date_patterns` list of `_extract_from_text`, in source order. -/
def date_patterns : List Rx :=
  [rSeq [Rx.rep rDigit 1 (some 2), dateSep, Rx.rep rDigit 1 (some 2), dateSep,
         Rx.rep rDigit 2 (some 4)],
   rSeq [Rx.rep rDigit 4 (some 4), dateSep, Rx.rep rDigit 1 (some 2), dateSep,
         Rx.rep rDigit 1 (some 2)],
   rSeq [monAbbrAlt, rStar lowerAZ, rOpt (Rx.lit '.'), rPlus rWs,
         Rx.rep rDigit 1 (some 2), rPlus (Rx.cls (fun c => c = ',' || pyWs c)),
         Rx.rep rDigit 4 (some 4)],
   rSeq [Rx.rep rDigit 1 (some 2), rPlus rWs, monAbbrAlt, rStar lowerAZ,
         rOpt (Rx.lit '.'), rPlus rWs, Rx.rep rDigit 4 (some 4)],
   rSeq [Rx.rep rDigit 1 (some 2), rPlus rWs, monAbbrAlt, rStar lowerAZ,
         rOpt (Rx.lit '.'), rPlus rWs, Rx.rep rDigit 2 (some 2)],
   rSeq [Rx.rep rDigit 1 (some 2), Rx.cls (fun c => c = '-' || c = '/'),
         monAbbrAlt, rStar lowerAZ, Rx.cls (fun c => c = '-' || c = '/'),
         Rx.rep rDigit 2 (some 4)]]

/-- The `date_keywords` list of `_extract_from_text`. -/
def date_keywords : List String :=
  ["date", "bill date", "invoice date", "transaction date", "sale date",
   "paid date", "issue date"]

/-- Inner `for pattern in date_patterns` loop: the first match of each
pattern has `.`/`,` removed and is run through `formats_to_try`; if it
fails to parse the next pattern is tried. -/
def datePatLoop : List Rx → List Char → Option Date
  | [], _ => none
  | p :: ps, s =>
    match rxSearch p s with
    | none => datePatLoop ps s
    | some (g0, _) =>
      match tryFormats formats_to_try (g0.filter (fun c => c ≠ '.' && c ≠ ',')) with
      | some d => some d
      | none => datePatLoop ps s

/-- Outer keyword-guided line scan for the transaction date: a line is
tried exactly when some date keyword occurs in its lowercased form (the
source re-runs the same patterns once per matching keyword, which is
equivalent). -/
def dateKeywordLoop : List (List Char) → Option Date
  | [] => none
  | l :: ls =>
    let ll := pyLower l
    if date_keywords.any (fun k => isSub k.data ll) then
      match datePatLoop date_patterns ll with
      | some d => some d
      | none => dateKeywordLoop ls
    else dateKeywordLoop ls

/-- Regex fragment `[:\s]*`. -/
def colonWsStar : Rx := rStar (Rx.cls (fun c => c = ':' || pyWs c))

/-- A named vendor pattern `<kw>[:\s]*(.+)` under IGNORECASE. -/
def vendorPat (kw : String) : Rx :=
  rSeq [rStrCI kw, colonWsStar, Rx.grp 1 (rPlus rDot)]

/-- The `vendor_patterns` list of `_extract_from_text`, in source order. -/
def vendor_patterns : List Rx :=
  [vendorPat "invoice from", vendorPat "bill from", vendorPat "receipt from",
   vendorPat "sold by", vendorPat "purchased from", vendorPat "billed by",
   rSeq [rAlts (["vendor", "biller", "store", "company"].map rStrCI),
         colonWsStar, Rx.grp 1 (rPlus rDot)]]

/-- The case-sensitive junk-boundary pattern used by
`re.split(r'[,;]\s*|phone|tel|email|website|www\.|gst|vat|abn|cin|ltd|inc|co\.|corporation|group|llc|pvt', v, 1)`. -/
def junkRx : Rx :=
  rAlts [rSeq [Rx.cls (fun c => c = ',' || c = ';'), rStar rWs],
         rStr "phone", rStr "tel", rStr "email", rStr "website", rStr "www.",
         rStr "gst", rStr "vat", rStr "abn", rStr "cin", rStr "ltd", rStr "inc",
         rStr "co.", rStr "corporation", rStr "group", rStr "llc", rStr "pvt"]

/-- The strong-indicator vendor loop: take the capture up to the first
newline, strip, truncate at the first junk-boundary match, strip again,
and accept when nonempty with length in `(2, 100)`. -/
def vendorStrongLoop : List Rx → List Char → Option (List Char)
  | [], _ => none
  | p :: ps, t =>
    match rxSearchG1 p t with
    | none => vendorStrongLoop ps t
    | some g1 =>
      let pv := pyStrip (g1.takeWhile (fun c => c ≠ '\n'))
      let pv2 := pyStrip (rxSplitBefore junkRx pv)
      if !pv2.isEmpty && pv2.length > 2 && pv2.length < 100 then some pv2
      else vendorStrongLoop ps t

/-- The address-keyword pattern of the fallback vendor scan (IGNORECASE). -/
def addrRx : Rx :=
  rAlts (["street", "road", "avenue", "po box", "p.o.", "city", "state", "zip",
          "pin", "building", "floor", "apt", "suite", "flat", "unit"].map rStrCI)

/-- Regex `\d{3,}`. -/
def digitRun3 : Rx := Rx.rep rDigit 3 none

/-- The date/amount-keyword pattern of the fallback vendor scan
(IGNORECASE). -/
def dateAmtKwRx : Rx :=
  rAlts (["date", "total", "amount", "invoice", "receipt", "bill", "gst", "vat"].map rStrCI)

/-- `is_number_heavy`: evaluated only when `\d{3,}` matches (Python `and`
short-circuits); the digit-ratio division raises `ZeroDivisionError` on
an empty line, modelled as a thrown exception. -/
def numberHeavy (cleaned : List Char) : Except PyExc Bool :=
  if rxTest digitRun3 cleaned then
    if cleaned.length = 0 then Except.error PyExc.zeroDivision
    else Except.ok (decide (10 * digitCount cleaned > 3 * cleaned.length))
  else Except.ok false

/-- The last conjunct of the fallback criteria, reached only when the
four earlier conjuncts hold: `cleaned_line[0].isupper() or
cleaned_line.isupper() or len(cleaned_line.split()) > 1`, with the
indexing modelled as a possible `IndexError`. -/
def nameLikeCheck (cleaned : List Char) (addr nh kw tooSL : Bool) : Except PyExc Bool :=
  if !addr && !nh && !kw && !tooSL then
    match cleaned with
    | [] => Except.error PyExc.indexOutOfRange
    | c :: _ =>
      Except.ok (isUpperPy c || pyIsUpper cleaned ||
        decide ((pySplitWs cleaned).length > 1))
  else Except.ok false

/-- `top_lines_to_scan`: the first up-to-seven stripped nonempty lines. -/
def topLines (lines : List (List Char)) : List (List Char) :=
  (lines.filterMap (fun l =>
    let s := pyStrip l
    if s.isEmpty then none else some s)).take 7

/-- The fallback top-lines vendor scan.  A line meeting all criteria is
assigned to `vendor_name`; the loop `break`s early for the first line
(when not number-heavy) or a short line among the first three, otherwise
it keeps scanning and a later assignment overwrites the earlier one. -/
def vendorFallback : List (List Char) → Nat → Except PyExc (Option (List Char))
  | [], _ => Except.ok none
  | lc :: rest, i =>
    if lc.isEmpty then vendorFallback rest (i + 1) else
    let cleaned := pyStrip lc
    let addr := rxTest addrRx cleaned
    match numberHeavy cleaned with
    | .error e => .error e
    | .ok nh =>
      let kw := rxTest dateAmtKwRx cleaned
      let tooSL := !(decide (3 < cleaned.length) && decide (cleaned.length < 60))
      match nameLikeCheck cleaned addr nh kw tooSL with
      | .error e => .error e
      | .ok cond =>
        if cond then
          if i = 0 && !nh then .ok (some cleaned)
          else if i < 3 && (pySplitWs cleaned).length < 5 then .ok (some cleaned)
          else
            match vendorFallback rest (i + 1) with
            | .error e => .error e
            | .ok (some v) => .ok (some v)
            | .ok none => .ok (some cleaned)
        else vendorFallback rest (i + 1)

/-- The `category_map` of `_extract_from_text`, in insertion order. -/
def category_map : List (String × String) :=
  [("grocer", "Groceries"), ("supermart", "Groceries"), ("hypermarket", "Groceries"),
   ("foodmart", "Groceries"), ("bakery", "Groceries"), ("market", "Groceries"),
   ("electricity", "Utilities"), ("power bill", "Utilities"), ("light bill", "Utilities"),
   ("internet", "Utilities"), ("telecom", "Utilities"), ("broadband", "Utilities"),
   ("water bill", "Utilities"), ("gas bill", "Utilities"),
   ("restaurant", "Dining"), ("cafe", "Dining"), ("food", "Dining"), ("diner", "Dining"),
   ("eatery", "Dining"), ("pizzeria", "Dining"), ("kfc", "Dining"), ("mcdonalds", "Dining"),
   ("petrol", "Transport"), ("gas station", "Transport"), ("fuel", "Transport"),
   ("auto", "Transport"), ("car wash", "Transport"),
   ("pharmacy", "Health"), ("medicine", "Health"), ("clinic", "Health"),
   ("hospital", "Health"), ("doctor", "Health"),
   ("fashion", "Shopping"), ("clothing", "Shopping"), ("boutique", "Shopping"),
   ("retail", "Shopping"), ("department store", "Shopping"), ("mall", "Shopping"),
   ("electronics", "Electronics"), ("tech store", "Electronics"),
   ("computer", "Electronics"), ("mobile", "Electronics"),
   ("bookstore", "Books"), ("library", "Books"),
   ("travel", "Travel"), ("airline", "Travel"), ("hotel", "Travel"),
   ("vacation", "Travel"), ("resort", "Travel"),
   ("subscription", "Subscriptions"), ("monthly fee", "Subscriptions"),
   ("membership", "Subscriptions"), ("streaming", "Subscriptions")]

/-- The category lookup: first keyword occurring in the lowered text or
in the lowered (truthy) vendor name wins. -/
def categoryLoop : List (String × String) → List Char → Option String → Option String
  | [], _, _ => none
  | (k, cat) :: rest, lt, vendor =>
    if isSub k.data lt ||
       (match vendor with
        | some v => !v.isEmpty && isSub k.data (pyLower v.data)
        | none => false) then some cat
    else categoryLoop rest lt vendor

/-- The billing-period date fragment: one or two digits, a separator
(dash, slash or dot), one or two digits, a separator, two to four
digits — the same shape as the first transaction-date pattern. -/
def bpDate : Rx :=
  rSeq [Rx.rep rDigit 1 (some 2), dateSep, Rx.rep rDigit 1 (some 2), dateSep,
        Rx.rep rDigit 2 (some 4)]

/-- The `billing_period_patterns` list of `_extract_from_text`, in
source order. -/
def billing_period_patterns : List Rx :=
  [rSeq [rAlts (["billing", "service", "period"].map rStr), rStar rWs, colonEq,
         rStar rWs, Rx.grp 1 bpDate, rStar rWs,
         rAlts [rStr "to", rStr "-"], rStar rWs, Rx.grp 2 bpDate],
   rSeq [rStr "for the period", rStar rWs, rStr "from", rStar rWs,
         Rx.grp 1 bpDate, rStar rWs, rStr "to", rStar rWs, Rx.grp 2 bpDate]]

/-- The billing-period loop: each pattern's first match has its two
groups stripped of `.` and parsed via `formats_to_try`; the pair is kept
only when both parse, otherwise the next pattern is tried. -/
def billingLoop : List Rx → List Char → Option (Date × Date)
  | [], _ => none
  | p :: ps, lt =>
    match rxSearchG12 p lt with
    | none => billingLoop ps lt
    | some (g1, g2) =>
      match tryFormats formats_to_try (g1.filter (fun c => c ≠ '.')),
            tryFormats formats_to_try (g2.filter (fun c => c ≠ '.')) with
      | some d1, some d2 => some (d1, d2)
      | _, _ => billingLoop ps lt

/-- The dictionary `_extract_from_text` builds.  A `none` field models an
absent key, except `category_name`, whose key the source always sets
(possibly to `None`) — both read back identically through `.get`-style
access, and `parsed_raw_text`, which `parse_document` adds afterwards. -/
structure ExtractedFields where
  amount : Option ℚ := none
  currency : Option String := none
  transaction_date : Option Date := none
  vendor_name : Option String := none
  category_name : Option String := none
  billing_period_start : Option Date := none
  billing_period_end : Option Date := none
  parsed_raw_text : Option String := none
deriving DecidableEq, Repr

/-- The two-stage vendor extraction: strong named patterns first, then
the fallback top-lines scan. -/
def vendorExtract (t : List Char) (lines : List (List Char)) :
    Except PyExc (Option (List Char)) :=
  match vendorStrongLoop vendor_patterns t with
  | some v => Except.ok (some v)
  | none => vendorFallback (topLines lines) 0

/-- The transaction-date extraction: keyword-guided line scan first, then
the whole-text fallback. -/
def dateExtract (lines : List (List Char)) (lowerT : List Char) : Option Date :=
  match dateKeywordLoop lines with
  | some d => some d
  | none => datePatLoop date_patterns lowerT

/-- `parsing._extract_from_text(text, file_type)`: rule-based extraction
of amount+currency, transaction date, vendor, category and billing
period.  The `file_type` parameter of the source is unused by its body
and omitted here.  The `Except` layer carries the two spots where the
Python body could in principle raise; the totality theorem for the
safety claim shows it never does. -/
def extractFromText (text : String) : Except PyExc ExtractedFields :=
  let t := text.data
  let lines := pySplitOn '\n' t
  let lowerT := pyLower t
  let scan := amountLoop amount_patterns lowerT "INR"
  match vendorExtract t lines with
  | .error e => .error e
  | .ok rawVendor =>
    let vendorName : Option String :=
      rawVendor.map (fun v => ⟨pyTitle (joinSpace (pySplitWs v))⟩)
    let billing := billingLoop billing_period_patterns lowerT
    Except.ok
      { amount := scan.amount
        currency := if scan.amount.isSome then some scan.currency else none
        transaction_date := dateExtract lines lowerT
        vendor_name := vendorName
        category_name := categoryLoop category_map lowerT vendorName
        billing_period_start := billing.map Prod.fst
        billing_period_end := billing.map Prod.snd
        parsed_raw_text := none }

/-! ## `validation.py` -/

/-- File types recognised by `validate_file_type`. -/
inductive FileType where
  | image : FileType
  | pdf : FileType
  | text : FileType
deriving DecidableEq, Repr

/-- `validation.validate_file_type(file_name)`: `none` input models a
non-string argument (the `isinstance` guard), string input takes the last
`'.'`-separated component, lowercases it and looks it up; `none` output
is the unsupported sentinel. -/
def validate_file_type : Option String → Option FileType
  | none => none
  | some name =>
    let ext := pyLower ((pySplitOn '.' name.data).getLastD [])
    if ["jpg", "jpeg", "png", "gif", "bmp"].any (fun s => ext = s.data) then some .image
    else if ext = "pdf".data then some .pdf
    else if ext = "txt".data then some .text
    else none

/-- Possible runtime values reaching the `parse_date_strings` validator. -/
inductive PyDateVal where
  | str : String → PyDateVal
  | date : Date → PyDateVal
  | pyNone : PyDateVal
  | other : PyDateVal
deriving DecidableEq, Repr

/-- Outcome of the `parse_date_strings` validator. -/
inductive PdsResult where
  | ok : Option Date → PdsResult
  | nameError : PdsResult
  | typeError : PdsResult
deriving DecidableEq, Repr

/-- The date formats written in `ParsedReceiptData.parse_date_strings`
(a six-element list, unlike the eighteen-element `formats_to_try` of
`parsing.py`). -/
def validation_date_formats : List (List FmtTok) :=
  [[.dY, .lit '-', .dm, .lit '-', .dd],
   [.dd, .lit '-', .dm, .lit '-', .dY],
   [.dY, .lit '/', .dm, .lit '/', .dd],
   [.dd, .lit '/', .dm, .lit '/', .dY],
   [.db, .ws, .dd, .lit ',', .ws, .dY],
   [.dB, .ws, .dd, .lit ',', .ws, .dY]]

/-- `ParsedReceiptData.parse_date_strings`.  `validation.py` imports only
`date` from `datetime`, yet the string branch executes
`datetime.strptime(v, fmt)`: the name `datetime` is unbound, so the very
first loop iteration raises `NameError` — which the `except ValueError`
does not catch — before any format can be tried.  Date objects and `None`
pass through; any other type raises `TypeError`. -/
def parse_date_strings : PyDateVal → PdsResult
  | .str _ => .nameError
  | .date d => .ok (some d)
  | .pyNone => .ok none
  | .other => .typeError

/-- `ParsedReceiptData.validate_currency` composed with the field
default: an absent field takes the declared default `"USD"` (pydantic v1
does not run the validator on defaults); a present string is uppercased
and stripped and kept when it is alphabetic of length at most five,
otherwise the validator falls back to `"USD"`. -/
def validate_currency : Option String → String
  | none => "USD"
  | some s =>
    let u := pyStrip (s.data.map Char.toUpper)
    if u.length ≤ 5 && pyIsAlpha u then ⟨u⟩ else "USD"

/-- The validated record (`ParsedReceiptData` after construction):
required fields present and typed, optional fields passed through. -/
structure ReceiptRecord where
  vendor_name : String
  transaction_date : Date
  amount : ℚ
  currency : String
  category_name : Option String
  billing_period_start : Option Date
  billing_period_end : Option Date
  parsed_raw_text : Option String
deriving DecidableEq, Repr

/-- The required-field violations pydantic v1 collects for
`ParsedReceiptData`, in field-declaration order: `vendor_name` missing or
failing `min_length=1`, `transaction_date` missing, `amount` missing or
failing `gt=0`.  (Inputs are extraction-shaped: dates arrive as date
objects — `_extract_from_text` never produces date strings — and amounts
as numbers, so the validators' string branches are not exercised here.) -/
def requiredErrs (f : ExtractedFields) : List String :=
  (match f.vendor_name with
   | none => ["vendor_name"]
   | some v => if v.isEmpty then ["vendor_name"] else [])
  ++ (match f.transaction_date with
      | none => ["transaction_date"]
      | some _ => [])
  ++ (match f.amount with
      | none => ["amount"]
      | some a => if 0 < a then [] else ["amount"])

/-- Construction of `ParsedReceiptData(**extracted_fields)` under
pydantic v1 semantics: all field errors are collected into one
`ValidationError` enumerating the violated fields; when there are none
the typed record is produced, with the currency default/fallback
applied. -/
def validateReceipt (f : ExtractedFields) : Except (List String) ReceiptRecord :=
  let errs := requiredErrs f
  match f.vendor_name, f.transaction_date, f.amount with
  | some v, some d, some a =>
    if errs.isEmpty then
      Except.ok ⟨v, d, a, validate_currency f.currency, f.category_name,
                 f.billing_period_start, f.billing_period_end, f.parsed_raw_text⟩
    else Except.error errs
  | _, _, _ => Except.error errs

/-! ## `ocr_utils.py` and `parse_document`

The OpenCV and Tesseract calls are parameters; the repository-owned
control flow around them — no deskew-skip path, a bare `except` that
collapses every preprocessing failure to `None`, both OCR failure modes
returning `None` — is embedded faithfully.  The one piece of library
behaviour fixed concretely is `cv2.minAreaRect` asserting (raising) on an
empty point list, which `np.column_stack(np.where(thresh > 0))` produces
exactly when the binarised image has no foreground pixel. -/

/-- A decoded image as a pixel matrix. -/
abbrev PixImg := List (List Nat)

/-- The OpenCV operations `preprocess_image_for_ocr` invokes, as opaque
total parameters (`imdecode` may fail, returning `None`). -/
structure CvEnv where
  imdecode : List Nat → Option PixImg
  cvtColor : PixImg → PixImg
  adaptiveThreshold : PixImg → PixImg
  minAreaRectAngle : List (Nat × Nat) → ℚ
  rotate : PixImg → ℚ → PixImg

/-- `np.column_stack(np.where(thresh > 0))`: coordinates of the strictly
positive pixels. -/
def foregroundCoords (img : PixImg) : List (Nat × Nat) :=
  (((List.range img.length).zip img).map (fun p =>
    ((List.range p.2.length).zip p.2).filterMap (fun q =>
      if q.2 > 0 then some (p.1, q.1) else none))).flatten

/-- `ocr_utils.preprocess_image_for_ocr`: decode, grayscale, adaptive
threshold, then deskew unconditionally — there is no skip path; when the
thresholded image has no foreground pixel, `cv2.minAreaRect` raises on
the empty coordinate list and the bare `except` returns `None`. -/
def preprocess_image_for_ocr (cv : CvEnv) (bytes : List Nat) : Option PixImg :=
  match cv.imdecode bytes with
  | none => none
  | some img =>
    let thresh := cv.adaptiveThreshold (cv.cvtColor img)
    match foregroundCoords thresh with
    | [] => none
    | c :: cs =>
      let angle0 := cv.minAreaRectAngle (c :: cs)
      let angle := if angle0 < -45 then -(90 + angle0) else -angle0
      some (cv.rotate thresh angle)

/-- Outcome of the `pytesseract.image_to_string` call. -/
inductive OcrRun where
  | engineMissing : OcrRun
  | otherFailure : OcrRun
  | recognized : String → OcrRun
deriving DecidableEq, Repr

/-- `ocr_utils.extract_text_from_image`: `None` when preprocessing
failed; `None` from the `TesseractNotFoundError` handler; `None` from the
generic exception handler; otherwise the recognised text, stripped.  The
two failure handlers return the same value — callers cannot tell them
apart. -/
def extract_text_from_image (cv : CvEnv) (run : OcrRun) (bytes : List Nat) : Option String :=
  match preprocess_image_for_ocr cv bytes with
  | none => none
  | some _ =>
    match run with
    | .engineMissing => none
    | .otherFailure => none
    | .recognized t => some (pyStripStr t)

/-- Environment of one `parse_document` run: the stored-file content, the
decode outcomes for the three encodings tried in order, the PyPDF2
text-layer result (`none` models an exception inside the PDF branch), and
the OCR stage. -/
structure AcqEnv where
  cv : CvEnv
  ocr : OcrRun
  content : Option (List Nat)
  utf8 : Option String
  latin1 : Option String
  cp1252 : Option String
  pdfText : Option String

/-- Typed failures `parse_document` raises.  `unsupportedFileType`,
`unreadableFile` and `decodeFailed` are `FileProcessingError`s; the
others are `ParsingError`s, each constructor standing for the distinct
message template the source interpolates the filename into. -/
inductive PErr where
  | unsupportedFileType : String → PErr
  | unreadableFile : String → PErr
  | decodeFailed : String → PErr
  | ocrProcessingFailed : String → PErr
  | pdfNoSelectableText : String → PErr
  | noMeaningfulText : String → PErr
  | pyError : PyExc → PErr
  | validationFailed : List String → PErr
deriving DecidableEq, Repr

/-- Error classes of the source's exception hierarchy. -/
inductive ErrClass where
  | fileProcessing : ErrClass
  | parsing : ErrClass
  | uncaught : ErrClass
deriving DecidableEq, Repr

/-- Which exception class each failure is raised as. -/
def errClass : PErr → ErrClass
  | .unsupportedFileType _ => .fileProcessing
  | .unreadableFile _ => .fileProcessing
  | .decodeFailed _ => .fileProcessing
  | .ocrProcessingFailed _ => .parsing
  | .pdfNoSelectableText _ => .parsing
  | .noMeaningfulText _ => .parsing
  | .pyError _ => .uncaught
  | .validationFailed _ => .parsing

/-- The decode loop of the text branch: first successful encoding wins
(UTF-8, then latin-1, then cp1252). -/
def firstDecode (env : AcqEnv) : Option String :=
  match env.utf8 with
  | some d => some d
  | none =>
    match env.latin1 with
    | some d => some d
    | none => env.cp1252

/-- Text acquisition of `parse_document` (lines 287–340): the per-type
branch plus the final empty-text check.  The text branch's
`if not extracted_text` on an empty decode raises inside the `try` (the
mis-constructed `UnicodeDecodeError` becomes a `TypeError`, still caught)
and surfaces as the decode `FileProcessingError`; a whitespace-only
decode reaches the final check and gets the generic empty-text
`ParsingError`; an empty PDF text layer (or a PyPDF2 exception) gets the
PDF-specific message; an image whose OCR yields nothing fails inside the
image branch with the OCR message. -/
def acquireText (env : AcqEnv) (name : String) (ft : FileType)
    (bytes : List Nat) : Except PErr String :=
  match ft with
  | .text =>
    match firstDecode env with
    | none => .error (.decodeFailed name)
    | some d =>
      if d = "" then .error (.decodeFailed name)
      else if pyStripStr d = "" then .error (.noMeaningfulText name)
      else .ok d
  | .pdf =>
    match env.pdfText with
    | some t => if pyStripStr t = "" then .error (.pdfNoSelectableText name) else .ok t
    | none => .error (.pdfNoSelectableText name)
  | .image =>
    match extract_text_from_image env.cv env.ocr bytes with
    | none => .error (.ocrProcessingFailed name)
    | some t =>
      if t = "" then .error (.ocrProcessingFailed name)
      else if pyStripStr t = "" then .error (.ocrProcessingFailed name)
      else .ok t

/-- `parsing.parse_document`: classify by filename, read content, acquire
text, extract fields, validate.  Field extraction is applied only to the
successfully acquired text. -/
def parse_document (env : AcqEnv) (name : String) : Except PErr ReceiptRecord :=
  match validate_file_type (some name) with
  | none => .error (.unsupportedFileType name)
  | some ft =>
    match env.content with
    | none => .error (.unreadableFile name)
    | some bytes =>
      match acquireText env name ft bytes with
      | .error e => .error e
      | .ok t =>
        match extractFromText t with
        | .error e => .error (.pyError e)
        | .ok fields =>
          match validateReceipt { fields with parsed_raw_text := some t } with
          | .ok rec => .ok rec
          | .error errs => .error (.validationFailed errs)

/-! ## Auxiliary definitions for the claim statements -/

/-- The extension table as the amended classification claim words it: a
classifier applied to an already-isolated, lowercased extension, to be
compared with `validate_file_type`'s treatment of the last
dot-separated component. -/
def classifyExt (ext : List Char) : Option FileType :=
  if ["jpg", "jpeg", "png", "gif", "bmp"].any (fun s => ext = s.data) then some .image
  else if ext = "pdf".data then some .pdf
  else if ext = "txt".data then some .text
  else none

/-- A five-by-five uniform grayscale image (every pixel 200). -/
def uniformImg : PixImg := List.replicate 5 (List.replicate 5 200)

/-- A five-by-five all-zero image: the adaptive threshold
(`ADAPTIVE_THRESH_GAUSSIAN_C`, `THRESH_BINARY_INV`, C=2) of a uniform
image, whose every pixel equals its local mean and so falls below
mean minus 2. -/
def zeroImg : PixImg := List.replicate 5 (List.replicate 5 0)

/-- A concrete OpenCV interpretation for the uniform tiny image: decoding
always yields `uniformImg`, grayscaling is the identity on the
already-gray matrix, and thresholding yields the all-background
`zeroImg`; the deskew helpers are never consulted on this run. -/
def cvUniform : CvEnv :=
  { imdecode := fun _ => some uniformImg
    cvtColor := fun i => i
    adaptiveThreshold := fun _ => zeroImg
    minAreaRectAngle := fun _ => 0
    rotate := fun i _ => i }

/-- A `parse_document` environment for the tiny uniform image: readable
content, a working OCR engine that would recognise text — so that any
failure is attributable to preprocessing alone. -/
def envTiny : AcqEnv :=
  { cv := cvUniform
    ocr := OcrRun.recognized "Total: 5"
    content := some [1, 2, 3]
    utf8 := none
    latin1 := none
    cp1252 := none
    pdfText := none }

/-! ## Helper lemmas -/

theorem pySplitOn_ne_nil (sep : Char) (l : List Char) : pySplitOn sep l ≠ [] := by
  cases l with
  | nil => simp [pySplitOn]
  | cons c cs =>
    simp only [pySplitOn]
    split
    · simp
    · split <;> simp

theorem pySplitOn_not_mem (sep : Char) (l : List Char) (h : sep ∉ l) :
    pySplitOn sep l = [l] := by
  induction l with
  | nil => rfl
  | cons c cs ih =>
    simp only [List.mem_cons, not_or] at h
    have hne : ¬ c = sep := fun hc => h.1 hc.symm
    simp only [pySplitOn, if_neg hne, ih h.2]

theorem pySplitOn_len2 (sep : Char) (l : List Char) (h : sep ∈ l) :
    2 ≤ (pySplitOn sep l).length := by
  induction l with
  | nil => cases h
  | cons c cs ih =>
    by_cases hc : c = sep
    · have h1 : pySplitOn sep cs ≠ [] := pySplitOn_ne_nil sep cs
      have h2 : 1 ≤ (pySplitOn sep cs).length := by
        cases hq : pySplitOn sep cs with
        | nil => exact absurd hq h1
        | cons a as => simp
      simp only [pySplitOn, if_pos hc, List.length_cons]
      omega
    · have hm : sep ∈ cs := by
        rcases List.mem_cons.mp h with h1 | h1
        · exact absurd h1.symm hc
        · exact h1
      have h2 := ih hm
      simp only [pySplitOn, if_neg hc]
      cases hq : pySplitOn sep cs with
      | nil => exact absurd hq (pySplitOn_ne_nil sep cs)
      | cons g gs =>
        rw [hq] at h2
        simpa using h2

theorem getLastD_indep {α : Type} (l : List α) (hl : l ≠ []) (d1 d2 : α) :
    l.getLastD d1 = l.getLastD d2 := by
  rw [List.getLastD_eq_getLast?, List.getLastD_eq_getLast?]
  obtain ⟨y, hy⟩ := Option.isSome_iff_exists.mp (List.getLast?_isSome.mpr hl)
  rw [hy]
  rfl

theorem pySplitOn_last_append (pre ext : List Char) :
    (pySplitOn '.' (pre ++ '.' :: ext)).getLastD [] =
    (pySplitOn '.' ext).getLastD [] := by
  induction pre with
  | nil =>
    simp only [List.nil_append, pySplitOn, if_pos rfl]
    exact List.getLastD_cons [] [] (pySplitOn '.' ext) ▸ rfl
  | cons c pre ih =>
    by_cases hc : c = '.'
    · simp only [List.cons_append, pySplitOn, if_pos hc]
      have := List.getLastD_cons ([] : List Char) ([] : List Char)
        (pySplitOn '.' (pre ++ '.' :: ext))
      rw [List.getLastD_cons, getLastD_indep _ (pySplitOn_ne_nil _ _) [] []] at *
      exact ih
    · simp only [List.cons_append, pySplitOn, if_neg hc]
      have hdot : '.' ∈ pre ++ '.' :: ext := by simp
      have hlen := pySplitOn_len2 '.' (pre ++ '.' :: ext) hdot
      cases hq : pySplitOn '.' (pre ++ '.' :: ext) with
      | nil => exact absurd hq (pySplitOn_ne_nil _ _)
      | cons g gs =>
        rw [hq] at hlen
        have hgs : gs ≠ [] := by
          cases gs with
          | nil => simp at hlen
          | cons a as => simp
        rw [hq] at ih
        rw [List.getLastD_cons] at ih ⊢
        rw [getLastD_indep gs hgs (c :: g) g]
        exact ih

theorem numberHeavy_ok (l : List Char) : ∃ b, numberHeavy l = Except.ok b := by
  cases ht : rxTest digitRun3 l with
  | false => exact ⟨false, by simp [numberHeavy, ht]⟩
  | true =>
    cases l with
    | nil => exact absurd ht (by decide)
    | cons c cs =>
      exact ⟨decide (10 * digitCount (c :: cs) > 3 * (c :: cs).length),
        by simp [numberHeavy, ht]⟩

theorem nameLikeCheck_ok (l : List Char) (a nh kw tsl : Bool)
    (htsl : tsl = false → 3 < l.length) :
    ∃ b, nameLikeCheck l a nh kw tsl = Except.ok b := by
  by_cases hcond : (!a && !nh && !kw && !tsl) = true
  · have h4 : tsl = false := by
      rcases Bool.and_eq_true .. |>.mp hcond with ⟨_, h⟩
      exact Bool.not_eq_true' .. |>.mp h
    have hlen := htsl h4
    cases l with
    | nil => simp at hlen
    | cons c cs =>
      exact ⟨isUpperPy c || pyIsUpper (c :: cs) ||
        decide ((pySplitWs (c :: cs)).length > 1), by simp [nameLikeCheck, hcond]⟩
  · exact ⟨false, by simp [nameLikeCheck, hcond]⟩

theorem vendorFallback_ok (ls : List (List Char)) (i : Nat) :
    ∃ v, vendorFallback ls i = Except.ok v := by
  induction ls generalizing i with
  | nil => exact ⟨none, rfl⟩
  | cons lc rest ih =>
    unfold vendorFallback
    by_cases he : lc.isEmpty = true
    · simpa [he] using ih (i + 1)
    · rw [if_neg he]
      obtain ⟨nh, hnh⟩ := numberHeavy_ok (pyStrip lc)
      obtain ⟨cond, hcond⟩ := nameLikeCheck_ok (pyStrip lc)
        (rxTest addrRx (pyStrip lc)) nh (rxTest dateAmtKwRx (pyStrip lc))
        (!(decide (3 < (pyStrip lc).length) && decide ((pyStrip lc).length < 60)))
        (by
          intro hf
          simp only [Bool.not_eq_eq_eq_not, Bool.not_false, Bool.and_eq_true,
            decide_eq_true_eq] at hf
          exact hf.1)
      dsimp only
      rw [hnh]
      dsimp only
      rw [hcond]
      dsimp only
      cases cond with
      | false => simpa using ih (i + 1)
      | true =>
        by_cases h1 : (i = 0 && !nh) = true
        · exact ⟨some (pyStrip lc), by simp [h1]⟩
        · rw [Bool.not_eq_true] at h1
          by_cases h2 : (decide (i < 3) && decide ((pySplitWs (pyStrip lc)).length < 5)) = true
        -- fallthrough handled below
          · exact ⟨some (pyStrip lc), by simp [h1, h2]⟩
          · rw [Bool.not_eq_true] at h2
            obtain ⟨v, hv⟩ := ih (i + 1)
            refine ⟨(match v with | some w => some w | none => some (pyStrip lc)), ?_⟩
            simp only [h1, h2, Bool.false_eq_true, if_false, hv]
            cases v <;> rfl

/-! ## Claim theorems -/

/-- C9: field extraction is total — for every input text, the embedded
`_extract_from_text` returns an `ExtractedFields` record and never
raises: the two places its Python body could raise uncaught exceptions
(the digit-ratio division and the `cleaned_line[0]` index of the vendor
fallback) are unreachable, because the division is short-circuited behind
a three-digit-run match and the indexing behind the length window
check. -/
theorem C9_extraction_total (text : String) :
    ∃ r, extractFromText text = Except.ok r := by
  unfold extractFromText vendorExtract
  dsimp only
  cases hv : vendorStrongLoop vendor_patterns text.data with
  | some v => exact ⟨_, rfl⟩
  | none =>
    obtain ⟨w, hw⟩ := vendorFallback_ok (topLines (pySplitOn '\n' text.data)) 0
    rw [hw]
    exact ⟨_, rfl⟩

set_option maxRecDepth 40000 in
set_option maxHeartbeats 2000000 in
/-- C1: on the text with lines `Total: $100.00`, `Date: 2023-01-15` and
`Vendor: TestShop`, extraction returns amount 100.00, currency `USD`,
transaction date 2023-01-15 and the title-cased vendor `Testshop` (and
no category or billing period). -/
theorem C1_concrete_extraction :
    extractFromText "Total: $100.00\nDate: 2023-01-15\nVendor: TestShop" =
      Except.ok
        { amount := some 100
          currency := some "USD"
          transaction_date := some ⟨2023, 1, 15⟩
          vendor_name := some "Testshop"
          category_name := none
          billing_period_start := none
          billing_period_end := none
          parsed_raw_text := none } := by
  rfl

/-- C2 counterexample: the filename `jpg` contains no dot — it has no
extension at all — yet classification returns the image type, not the
Unsupported sentinel, because `split('.')[-1]` of a dot-free name is the
whole name. -/
theorem C2_counterexample :
    ('.' ∉ "jpg".data) ∧ validate_file_type (some "jpg") = some FileType.image := by
  constructor
  · decide
  · rfl

/-- C2 amended: classification applies the extension table (case
insensitively) to the last dot-separated component of the filename; for
a filename with a dot and a dot-free extension that component is the
extension, for a dot-free filename it is the whole name (so a dot-free
name equal to a supported extension is classified as that type), and
non-string input is Unsupported. -/
theorem C2_amended :
    validate_file_type none = none ∧
    (∀ s : String, '.' ∉ s.data →
      validate_file_type (some s) = classifyExt (pyLower s.data)) ∧
    (∀ pre ext : List Char, '.' ∉ ext →
      validate_file_type (some ⟨pre ++ '.' :: ext⟩) = classifyExt (pyLower ext)) := by
  refine ⟨rfl, ?_, ?_⟩
  · intro s hs
    simp only [validate_file_type, pySplitOn_not_mem '.' s.data hs,
      List.getLastD_cons, List.getLastD_nil, classifyExt]
  · intro pre ext hext
    have hdata : (⟨pre ++ '.' :: ext⟩ : String).data = pre ++ '.' :: ext := rfl
    simp only [validate_file_type, hdata, pySplitOn_last_append,
      pySplitOn_not_mem '.' ext hext, List.getLastD_cons, List.getLastD_nil,
      classifyExt]

/-- C2 witness: `receipt.JPG` has the dot-free extension `JPG` and is
classified by the table as an image, through the amended statement. -/
theorem C2_witness :
    ('.' ∉ "JPG".data) ∧
    validate_file_type (some "receipt.JPG") = classifyExt (pyLower "JPG".data) ∧
    classifyExt (pyLower "JPG".data) = some FileType.image :=
  ⟨by decide, C2_amended.2.2 "receipt".data "JPG".data (by decide), by rfl⟩

/-- C4: `validation.py` imports only `date` from `datetime`, so the
string branch of `parse_date_strings` raises `NameError` on every string
input — it can never produce a calendar date from a string, although the
module's own demonstration block and the test suite construct
`ParsedReceiptData` with string dates; moreover the format list written
in the validator is a six-element list different from the
`formats_to_try` list extraction uses.  Structured dates do pass through
unchanged. -/
theorem C4_string_dates_raise :
    parse_date_strings (PyDateVal.str "2023-01-01") = PdsResult.nameError ∧
    (∀ s : String, parse_date_strings (PyDateVal.str s) = PdsResult.nameError) ∧
    (∀ d : Date, parse_date_strings (PyDateVal.date d) = PdsResult.ok (some d)) ∧
    validation_date_formats ≠ formats_to_try :=
  ⟨rfl, fun _ => rfl, fun _ => rfl, by decide⟩

/-- C3 counterexample: a tiny uniform image whose binarisation has no
foreground pixel.  The claim says deskew is skipped and processing
continues to OCR; in fact there is no skip path — `cv2.minAreaRect`
raises on the empty coordinate list, the bare `except` turns
preprocessing into `None`, OCR returns `None`, and `parse_document`
raises the OCR-failure `ParsingError`, even though the OCR engine in
this environment works and would have recognised text. -/
theorem C3_counterexample :
    foregroundCoords (cvUniform.adaptiveThreshold (cvUniform.cvtColor uniformImg)) = [] ∧
    preprocess_image_for_ocr cvUniform [1, 2, 3] = none ∧
    envTiny.ocr = OcrRun.recognized "Total: 5" ∧
    parse_document envTiny "tiny.png" = Except.error (PErr.ocrProcessingFailed "tiny.png") :=
  ⟨rfl, rfl, rfl, rfl⟩

/-- C3 amended: when the binarised image has no foreground pixels, the
pipeline fails rather than skipping deskew — preprocessing returns
`None` (the empty-input assertion of `cv2.minAreaRect` is caught by the
bare `except`), OCR therefore returns `None`, and `parse_document`
raises the OCR-processing `ParsingError`; there is no minimum-dimension
or empty-foreground skip in the code. -/
theorem C3_amended (env : AcqEnv) (name : String) (bytes : List Nat) (img : PixImg)
    (himg : env.cv.imdecode bytes = some img)
    (hfg : foregroundCoords (env.cv.adaptiveThreshold (env.cv.cvtColor img)) = [])
    (hft : validate_file_type (some name) = some FileType.image)
    (hc : env.content = some bytes) :
    preprocess_image_for_ocr env.cv bytes = none ∧
    parse_document env name = Except.error (PErr.ocrProcessingFailed name) := by
  have hp : preprocess_image_for_ocr env.cv bytes = none := by
    unfold preprocess_image_for_ocr
    rw [himg]
    dsimp only
    rw [hfg]
  refine ⟨hp, ?_⟩
  unfold parse_document
  rw [hft, hc]
  dsimp only
  unfold acquireText extract_text_from_image
  rw [hp]

/-- C3 witness: the amended statement applied to the concrete tiny
uniform image environment. -/
theorem C3_witness :
    preprocess_image_for_ocr envTiny.cv [1, 2, 3] = none ∧
    parse_document envTiny "small.jpg" =
      Except.error (PErr.ocrProcessingFailed "small.jpg") :=
  C3_amended envTiny "small.jpg" [1, 2, 3] uniformImg rfl rfl rfl rfl

/-- C5 counterexample: there is no pair of runs on the same image whose
engine-missing and engine-failing outcomes differ — both `except`
handlers of `extract_text_from_image` return the same `None`, so the
failure values are identical for every image and callers cannot tell the
two apart. -/
theorem C5_counterexample :
    ¬ ∃ (cv : CvEnv) (bytes : List Nat),
        extract_text_from_image cv OcrRun.engineMissing bytes ≠
          extract_text_from_image cv OcrRun.otherFailure bytes := by
  rintro ⟨cv, bytes, hne⟩
  apply hne
  unfold extract_text_from_image
  cases preprocess_image_for_ocr cv bytes <;> rfl

/-- C5 amended: an unavailable OCR engine and any other OCR-stage error
produce the same `None` from `extract_text_from_image`, and
`parse_document`'s image branch turns both into the same generic
OCR-processing `ParsingError`; the distinction exists only in log
output, not in any value a caller receives. -/
theorem C5_amended (cv : CvEnv) (env : AcqEnv) (name : String) (bytes : List Nat) :
    extract_text_from_image cv OcrRun.engineMissing bytes = none ∧
    extract_text_from_image cv OcrRun.otherFailure bytes = none ∧
    acquireText { env with ocr := OcrRun.engineMissing } name FileType.image bytes =
      Except.error (PErr.ocrProcessingFailed name) ∧
    acquireText { env with ocr := OcrRun.otherFailure } name FileType.image bytes =
      Except.error (PErr.ocrProcessingFailed name) := by
  refine ⟨?_, ?_, ?_, ?_⟩
  · unfold extract_text_from_image
    cases preprocess_image_for_ocr cv bytes <;> rfl
  · unfold extract_text_from_image
    cases preprocess_image_for_ocr cv bytes <;> rfl
  · unfold acquireText extract_text_from_image
    cases preprocess_image_for_ocr env.cv bytes <;> rfl
  · unfold acquireText extract_text_from_image
    cases preprocess_image_for_ocr env.cv bytes <;> rfl

/-- C7: pydantic collects every required-field violation of
`ParsedReceiptData` into a single failure enumerating all violated
fields — a missing amount yields a failure listing `amount`, and a
simultaneously missing vendor and transaction date yields one failure
listing both. -/
theorem C7_aggregated (f : ExtractedFields) :
    (f.amount = none →
      ∃ errs, validateReceipt f = Except.error errs ∧ "amount" ∈ errs) ∧
    (f.vendor_name = none → f.transaction_date = none →
      ∃ errs, validateReceipt f = Except.error errs ∧
        "vendor_name" ∈ errs ∧ "transaction_date" ∈ errs) := by
  constructor
  · intro ha
    refine ⟨requiredErrs f, ?_, ?_⟩
    · cases hv : f.vendor_name <;> cases hd : f.transaction_date <;>
        simp [validateReceipt, hv, hd, ha]
    · unfold requiredErrs
      rw [ha]
      simp
  · intro hv hd
    refine ⟨requiredErrs f, ?_, ?_, ?_⟩
    · cases ha : f.amount <;> simp [validateReceipt, hv, hd, ha]
    · unfold requiredErrs
      rw [hv]
      simp
    · unfold requiredErrs
      rw [hd]
      simp

/-- C7 witness: validating an empty field record produces a single
aggregated failure listing `amount`, and one listing both `vendor_name`
and `transaction_date`. -/
theorem C7_witness :
    (∃ errs, validateReceipt {} = Except.error errs ∧ "amount" ∈ errs) ∧
    (∃ errs, validateReceipt {} = Except.error errs ∧
      "vendor_name" ∈ errs ∧ "transaction_date" ∈ errs) :=
  ⟨(C7_aggregated {}).1 rfl, (C7_aggregated {}).2 rfl rfl⟩

/-- C8: billing-period start and end are set together or not at all —
both equal the componentwise result of the billing-period pattern loop
(which accepts a match only when both captured dates parse under the
shared format list), so one is present exactly when the other is. -/
theorem C8_billing_both_or_neither (text : String) (r : ExtractedFields)
    (h : extractFromText text = Except.ok r) :
    r.billing_period_start =
      (billingLoop billing_period_patterns (pyLower text.data)).map Prod.fst ∧
    r.billing_period_end =
      (billingLoop billing_period_patterns (pyLower text.data)).map Prod.snd ∧
    (r.billing_period_start.isSome ↔ r.billing_period_end.isSome) := by
  unfold extractFromText at h
  dsimp only at h
  cases hv : vendorExtract text.data (pySplitOn '\n' text.data) with
  | error e =>
    rw [hv] at h
    exact absurd h (by simp)
  | ok rv =>
    rw [hv] at h
    dsimp only at h
    have hr := (Except.ok.injEq .. ▸ h :)
    subst hr
    refine ⟨rfl, rfl, ?_⟩
    cases billingLoop billing_period_patterns (pyLower text.data) <;> simp

/-- C8 witness: on a text with a billing-period line both dates are
present; the loop result carries the pair. -/
theorem C8_witness :
    (({ amount := some 100
        currency := some "INR"
        transaction_date := some ⟨2023, 1, 1⟩
        vendor_name := none
        category_name := none
        billing_period_start := some ⟨2023, 1, 1⟩
        billing_period_end := some ⟨2023, 1, 31⟩
        parsed_raw_text := none } : ExtractedFields)).billing_period_start =
      (billingLoop billing_period_patterns
        (pyLower "Billing period: 01-01-2023 to 31-01-2023. Amount: 100.".data)).map
        Prod.fst ∧
    (({ amount := some 100
        currency := some "INR"
        transaction_date := some ⟨2023, 1, 1⟩
        vendor_name := none
        category_name := none
        billing_period_start := some ⟨2023, 1, 1⟩
        billing_period_end := some ⟨2023, 1, 31⟩
        parsed_raw_text := none } : ExtractedFields)).billing_period_end =
      (billingLoop billing_period_patterns
        (pyLower "Billing period: 01-01-2023 to 31-01-2023. Amount: 100.".data)).map
        Prod.snd ∧
    ((some (⟨2023, 1, 1⟩ : Date)).isSome ↔ (some (⟨2023, 1, 31⟩ : Date)).isSome) :=
  C8_billing_both_or_neither
    "Billing period: 01-01-2023 to 31-01-2023. Amount: 100." _ (by rfl)

theorem validateReceipt_raw (f : ExtractedFields) (rec : ReceiptRecord)
    (h : validateReceipt f = Except.ok rec) :
    rec.parsed_raw_text = f.parsed_raw_text := by
  unfold validateReceipt at h
  cases hv : f.vendor_name <;> rw [hv] at h <;>
    cases hd : f.transaction_date <;> rw [hd] at h <;>
    cases ha : f.amount <;> rw [ha] at h <;>
    simp only [] at h
  case some.some.some v d a =>
    split at h
    · have hr := (Except.ok.injEq .. ▸ h :)
      rw [← hr]
    · exact absurd h (by simp)
  all_goals exact absurd h (by simp)

/-- C6: whenever the acquired text is empty or whitespace-only after
trimming, `parse_document` fails with a typed error before field
extraction — for a PDF with the dedicated no-selectable-text message,
distinct from the generic empty-text message used for text files (an
image whose OCR yields nothing fails even earlier, inside the image
branch, with the OCR-failure message) — and conversely any run that
reaches field extraction carries text whose trimmed form is nonempty. -/
theorem C6_empty_text_fails (env : AcqEnv) (name : String) :
    (∀ ft bytes t, acquireText env name ft bytes = Except.ok t → pyStripStr t ≠ "") ∧
    (∀ bytes t, env.pdfText = some t → pyStripStr t = "" →
      acquireText env name FileType.pdf bytes =
        Except.error (PErr.pdfNoSelectableText name)) ∧
    (∀ bytes, env.pdfText = none →
      acquireText env name FileType.pdf bytes =
        Except.error (PErr.pdfNoSelectableText name)) ∧
    (∀ bytes d, firstDecode env = some d → d ≠ "" → pyStripStr d = "" →
      acquireText env name FileType.text bytes =
        Except.error (PErr.noMeaningfulText name)) ∧
    (∀ bytes t, extract_text_from_image env.cv env.ocr bytes = some t → pyStripStr t = "" →
      acquireText env name FileType.image bytes =
        Except.error (PErr.ocrProcessingFailed name)) ∧
    PErr.pdfNoSelectableText name ≠ PErr.noMeaningfulText name ∧
    (∀ rec, parse_document env name = Except.ok rec →
      ∃ t, rec.parsed_raw_text = some t ∧ pyStripStr t ≠ "") := by
  have hok : ∀ ft bytes t, acquireText env name ft bytes = Except.ok t → pyStripStr t ≠ "" := by
    intro ft bytes t h
    cases ft with
    | text =>
      unfold acquireText at h
      dsimp only at h
      cases hd : firstDecode env <;> rw [hd] at h <;> dsimp only at h
      · exact absurd h (by simp)
      · split at h
        · exact absurd h (by simp)
        · split at h
          · exact absurd h (by simp)
          · have ht := (Except.ok.injEq .. ▸ h :)
            subst ht
            assumption
    | pdf =>
      unfold acquireText at h
      dsimp only at h
      cases hp : env.pdfText <;> rw [hp] at h <;> dsimp only at h
      · exact absurd h (by simp)
      · split at h
        · exact absurd h (by simp)
        · have ht := (Except.ok.injEq .. ▸ h :)
          subst ht
          assumption
    | image =>
      unfold acquireText at h
      dsimp only at h
      cases hi : extract_text_from_image env.cv env.ocr bytes <;> rw [hi] at h <;>
        dsimp only at h
      · exact absurd h (by simp)
      · split at h
        · exact absurd h (by simp)
        · split at h
          · exact absurd h (by simp)
          · have ht := (Except.ok.injEq .. ▸ h :)
            subst ht
            assumption
  refine ⟨hok, ?_, ?_, ?_, ?_, ?_, ?_⟩
  · intro bytes t hp hs
    unfold acquireText
    rw [hp]
    dsimp only
    rw [if_pos hs]
  · intro bytes hp
    unfold acquireText
    rw [hp]
  · intro bytes d hd hne hs
    unfold acquireText
    rw [hd]
    dsimp only
    rw [if_neg hne, if_pos hs]
  · intro bytes t ht hs
    unfold acquireText
    rw [ht]
    dsimp only
    by_cases h1 : t = ""
    · rw [if_pos h1]
    · rw [if_neg h1, if_pos hs]
  · intro h
    cases h
  · intro rec h
    unfold parse_document at h
    cases hft : validate_file_type (some name) <;> rw [hft] at h
    · exact absurd h (by simp)
    · case some ft =>
      cases hc : env.content <;> rw [hc] at h
      · exact absurd h (by simp)
      · case some bs =>
        dsimp only at h
        cases hacq : acquireText env name ft bs <;> rw [hacq] at h
        · exact absurd h (by simp)
        · case ok t =>
          dsimp only at h
          cases hex : extractFromText t <;> rw [hex] at h
          · exact absurd h (by simp)
          · case ok fields =>
            dsimp only at h
            cases hval : validateReceipt { fields with parsed_raw_text := some t } <;>
              rw [hval] at h
            · exact absurd h (by simp)
            · have hr := (Except.ok.injEq .. ▸ h :)
              subst hr
              refine ⟨t, ?_, hok ft bs t hacq⟩
              rw [validateReceipt_raw _ _ hval]

/-- C6 witness: a PDF whose text layer is a single space gets the
PDF-specific error, a text file decoding to a single space gets the
generic empty-text error, and the two messages differ. -/
theorem C6_witness :
    acquireText
        { cv := { imdecode := fun _ => none, cvtColor := fun i => i,
                  adaptiveThreshold := fun i => i, minAreaRectAngle := fun _ => 0,
                  rotate := fun i _ => i },
          ocr := OcrRun.otherFailure, content := none, utf8 := some " ",
          latin1 := none, cp1252 := none, pdfText := some " " }
        "bill.pdf" FileType.pdf [] =
      Except.error (PErr.pdfNoSelectableText "bill.pdf") ∧
    acquireText
        { cv := { imdecode := fun _ => none, cvtColor := fun i => i,
                  adaptiveThreshold := fun i => i, minAreaRectAngle := fun _ => 0,
                  rotate := fun i _ => i },
          ocr := OcrRun.otherFailure, content := none, utf8 := some " ",
          latin1 := none, cp1252 := none, pdfText := some " " }
        "note.txt" FileType.text [] =
      Except.error (PErr.noMeaningfulText "note.txt") ∧
    PErr.pdfNoSelectableText "x" ≠ PErr.noMeaningfulText "x" :=
  ⟨(C6_empty_text_fails _ "bill.pdf").2.1 [] " " rfl rfl,
   (C6_empty_text_fails _ "note.txt").2.2.2.1 [] " " rfl (by decide) rfl,
   (C6_empty_text_fails
      { cv := { imdecode := fun _ => none, cvtColor := fun i => i,
                adaptiveThreshold := fun i => i, minAreaRectAngle := fun _ => 0,
                rotate := fun i _ => i },
        ocr := OcrRun.otherFailure, content := none, utf8 := some " ",
        latin1 := none, cp1252 := none, pdfText := some " " } "x").2.2.2.2.2.1⟩

theorem amountLoop_currency_inv (ps : List Rx) (lt : List Char) :
    ∀ curr : String,
      (ps.all (fun p => (rxSearchG1 p lt).all
        (fun g1 => (rxSearchG1 detectCurrRx
          (pyStrip (g1.filter (fun c => c ≠ ',')))).isNone))) = true →
      (amountLoop ps lt curr).currency = curr := by
  induction ps with
  | nil =>
    intro curr _
    rfl
  | cons p ps ih =>
    intro curr h
    rw [List.all_cons, Bool.and_eq_true] at h
    obtain ⟨hp, hps⟩ := h
    unfold amountLoop
    cases hg : rxSearchG1 p lt with
    | none =>
      dsimp only
      exact ih curr hps
    | some g1 =>
      rw [hg] at hp
      have hdet : rxSearchG1 detectCurrRx
          (pyStrip (g1.filter (fun c => c ≠ ','))) = none := by
        rw [← Option.isNone_iff_eq_none]
        simpa [Option.all] using hp
      dsimp only
      rw [hdet]
      dsimp only
      cases hf : pyFloat ((pyStrip (g1.filter (fun c => c ≠ ','))).filter
          (fun c => c.isDigit || c = '.')) with
      | none =>
        dsimp only
        exact ih curr hps
      | some a =>
        dsimp only
        split
        · rfl
        · exact ih curr hps

/-- C10 counterexample: in `total: $0.001\namount: 50` the first pattern
matches `$0.00`, whose amount 0.0 is discarded as implausible but whose
dollar sign still sets the loop's `currency` to `USD`; the third pattern
then matches the plain `50` — a substring with no currency indicator —
and the extracted record carries amount 50 with currency `USD`, not the
extractor default `INR` the claim requires. -/
theorem C10_counterexample :
    extractFromText "total: $0.001\namount: 50" =
      Except.ok
        { amount := some 50
          currency := some "USD"
          transaction_date := none
          vendor_name := none
          category_name := none
          billing_period_start := none
          billing_period_end := none
          parsed_raw_text := none } ∧
    (amountLoop amount_patterns (pyLower "total: $0.001\namount: 50".data)
        "INR").matched = some "50".data ∧
    rxSearchG1 detectCurrRx "50".data = none ∧
    ("USD" : String) ≠ "INR" :=
  ⟨by rfl, by rfl, by rfl, by decide⟩

/-- C10 amended: the `currency` key is present exactly when the `amount`
key is; when an amount is extracted and no currency symbol or ISO code
occurs in any amount-pattern match examined during the search (not
merely the winning substring — a discarded earlier match also updates
the currency), the currency is the extractor default `INR`; and at
validation an absent currency receives the declared default `USD`, as
does one failing the short-alphabetic-code check. -/
theorem C10_amended (text : String) (r : ExtractedFields)
    (h : extractFromText text = Except.ok r) :
    (r.amount.isSome ↔ r.currency.isSome) ∧
    ((amount_patterns.all (fun p => (rxSearchG1 p (pyLower text.data)).all
        (fun g1 => (rxSearchG1 detectCurrRx
          (pyStrip (g1.filter (fun c => c ≠ ',')))).isNone))) = true →
      r.currency = none ∨ r.currency = some "INR") ∧
    validate_currency none = "USD" ∧
    (∀ s : String, pyIsAlpha (pyStrip (s.data.map Char.toUpper)) = false →
      validate_currency (some s) = "USD") ∧
    (∀ s : String, 5 < (pyStrip (s.data.map Char.toUpper)).length →
      validate_currency (some s) = "USD") := by
  unfold extractFromText at h
  dsimp only at h
  cases hv : vendorExtract text.data (pySplitOn '\n' text.data) with
  | error e =>
    rw [hv] at h
    exact absurd h (by simp)
  | ok rv =>
    rw [hv] at h
    dsimp only at h
    have hr := (Except.ok.injEq .. ▸ h :)
    subst hr
    refine ⟨?_, ?_, rfl, ?_, ?_⟩
    · cases hs : (amountLoop amount_patterns (pyLower text.data) "INR").amount <;> simp [hs]
    · intro hall
      have hc := amountLoop_currency_inv amount_patterns (pyLower text.data) "INR" hall
      rw [hc]
      cases hs : (amountLoop amount_patterns (pyLower text.data) "INR").amount <;> simp [hs]
    · intro s hs
      unfold validate_currency
      dsimp only
      rw [hs]
      simp
    · intro s hs
      unfold validate_currency
      dsimp only
      have hd : decide ((pyStrip (s.data.map Char.toUpper)).length ≤ 5) = false := by
        simp only [decide_eq_false_iff_not]
        omega
      simp [hd]

/-- C10 witness: on `amount: 50` no amount-pattern match contains a
currency indicator; the amended statement applies, the amount and
currency keys are present together, and the currency is the extractor
default `INR`. -/
theorem C10_witness :
    ((some (50 : ℚ) : Option ℚ).isSome ↔ (some "INR" : Option String).isSome) ∧
    ((some "INR" : Option String) = none ∨ (some "INR" : Option String) = some "INR") :=
  have happ := C10_amended "amount: 50"
    { amount := some 50
      currency := some "INR"
      transaction_date := none
      vendor_name := none
      category_name := none
      billing_period_start := none
      billing_period_end := none
      parsed_raw_text := none } (by rfl)
  ⟨happ.1, happ.2.1 (by rfl)⟩

end Receipts
